import Mathlib

/-!
Shallow embedding of the synthRss authentication backend.

The embedding follows the source files:
  app/schemas/auth.py   — request validation (RegisterRequest.interests_not_empty)
  app/core/security.py  — bcrypt wrappers (hash_password, verify_password) and
                          JWT helpers (create_access_token, decode_access_token)
  app/routes/auth.py    — the register and login request handlers

External libraries (bcrypt via passlib, JWT via python-jose, the SQLAlchemy
session) are black boxes to this code; they are embedded as explicit
parameters (oracles) or, for the JWT primitive, as an idealized reversible
model of its documented contract.  Python exceptions become Except values;
each database call that can fail is given an explicit outcome parameter.
-/

namespace SynthRss

/-- Outcome of one SQLAlchemy call (query / flush / commit).  `ok` is the
normal path; `integrityError` models sqlalchemy.exc.IntegrityError (a
uniqueness violation); `operationalError` models
sqlalchemy.exc.OperationalError (lost connectivity). -/
inductive DbOutcome where
  | ok
  | integrityError
  | operationalError
deriving DecidableEq, Repr

/-- The payload of a fastapi.HTTPException as raised by app/routes/auth.py:
status code, machine-readable code, human message, extra headers. -/
structure HTTPError where
  status : Nat
  code : String
  message : String
  headers : List (String × String) := []
deriving DecidableEq, Repr

/-- How a request handler terminates abnormally: either a deliberate
HTTPException, or a Python exception that escapes the handler uncaught
(surfaced by the framework as a generic 500 internal fault). -/
inductive Failure where
  | http (e : HTTPError)
  | uncaught (exc : String)
deriving DecidableEq, Repr

/-- Row of the `users` table (app/models/user.py); `interests` holds the
names reachable through the user_interests join. -/
structure User where
  full_name : String
  email : String
  hashed_password : String
  is_active : Bool
  interests : List String
deriving DecidableEq, Repr

/-- Database state: the `users` table and the `interests` table (the latter
as the list of interest names, in insertion order). -/
structure DB where
  users : List User
  interests : List String
deriving DecidableEq, Repr

/-- Body of POST /api/auth/register after Pydantic validation
(app/schemas/auth.py, RegisterRequest). -/
structure RegisterRequest where
  full_name : String
  email : String
  password : String
  interests : List String
deriving DecidableEq, Repr

/-- Body of POST /api/auth/login (app/schemas/auth.py, LoginRequest). -/
structure LoginRequest where
  email : String
  password : String
deriving DecidableEq, Repr

/-- Generic acknowledgement response (app/schemas/auth.py, MessageResponse). -/
structure MessageResponse where
  message : String
deriving DecidableEq, Repr

/-- Successful login response (app/schemas/auth.py, TokenResponse). -/
structure TokenResponse (Tok : Type) where
  access_token : Tok
  token_type : String
deriving DecidableEq, Repr

/-- The 409 raised on a duplicate email (auth.py lines 92-98 and 139-145:
the pre-check and the commit-race guard build the identical detail). -/
def duplicateEmailError : HTTPError :=
  { status := 409
    code := "EMAIL_ALREADY_REGISTERED"
    message := "An account with this email address already exists." }

/-- The 503 raised when the database connection fails (OperationalError). -/
def databaseUnavailableError : HTTPError :=
  { status := 503
    code := "DATABASE_ERROR"
    message := "Database connection failed" }

/-- The 401 raised on a failed login (auth.py lines 198-205). -/
def invalidCredentialsError : HTTPError :=
  { status := 401
    code := "INVALID_CREDENTIALS"
    message := "Incorrect email or password."
    headers := [("WWW-Authenticate", "Bearer")] }

/-- The 403 raised on a disabled account (auth.py lines 210-216). -/
def accountDisabledError : HTTPError :=
  { status := 403
    code := "ACCOUNT_DISABLED"
    message := "Your account has been deactivated. Please contact support." }

/-- The 500 raised when password hashing fails (auth.py lines 117-120). -/
def hashingErrorHTTP : HTTPError :=
  { status := 500
    code := "HASHING_ERROR"
    message := "Internal server error" }

/-- Python str.strip(): remove leading and trailing whitespace. -/
def pyStrip (s : String) : String :=
  String.mk (((s.data.dropWhile Char.isWhitespace).reverse.dropWhile Char.isWhitespace).reverse)

/-- Python str.lower(): lowercase every character. -/
def pyLower (s : String) : String :=
  String.mk (s.data.map Char.toLower)

/-! ## app/schemas/auth.py — the interests field validator -/

/-- The loop body of `interests_not_empty` (auth.py schema, lines 45-53):
strip each item, reject blank items, keep the first occurrence of each
stripped value (the `seen` set is compared case-sensitively, exactly as the
Python set of strings is). -/
def interestsClean (seen : List String) : List String → Except String (List String)
  | [] => Except.ok []
  | item :: rest =>
    let s := pyStrip item
    if s = "" then Except.error "Interest values must not be empty strings."
    else if s ∈ seen then interestsClean seen rest
    else
      match interestsClean (s :: seen) rest with
      | Except.ok tail => Except.ok (s :: tail)
      | Except.error e => Except.error e

/-- `RegisterRequest.interests_not_empty` (app/schemas/auth.py lines 40-54):
rejects an empty list, then trims and de-duplicates order-preservingly. -/
def interests_not_empty (v : List String) : Except String (List String) :=
  if v = [] then Except.error "Select at least one area of interest."
  else interestsClean [] v

/-! ## app/core/security.py — bcrypt wrappers -/

/-- bcrypt input limit (security.py line 20). -/
def MAX_BCRYPT_LENGTH : Nat := 72

/-- Python `plain[:MAX_BCRYPT_LENGTH]`: the first 72 characters. -/
def bcryptTruncate (plain : String) : String :=
  String.mk (plain.data.take MAX_BCRYPT_LENGTH)

/-- `hash_password` (security.py lines 23-40).  `ctxHash` is the passlib
CryptContext.hash primitive, a black box that may raise (Except.error);
any failure is re-raised as ValueError "HASHING_ERROR". -/
def hash_password (ctxHash : String → Except String String) (plain : String) :
    Except String String :=
  match ctxHash (bcryptTruncate plain) with
  | Except.ok h => Except.ok h
  | Except.error _ => Except.error "HASHING_ERROR"

/-- `verify_password` (security.py lines 43-58).  `ctxVerify` is the passlib
CryptContext.verify primitive, a black box that may raise; any failure is
swallowed and reported as a non-match. -/
def verify_password (ctxVerify : String → String → Except String Bool)
    (plain hashed : String) : Bool :=
  match ctxVerify (bcryptTruncate plain) hashed with
  | Except.ok b => b
  | Except.error _ => false

/-! ## app/core/security.py — JWT helpers

The python-jose primitive is an external black box; it is embedded as an
idealized model of its documented contract: encoding packages the claims
with the signing key and algorithm, decoding verifies that the key and
algorithm match and that the token is not expired.  Time is UTC epoch
seconds as a Nat. -/

/-- The claim set written by create_access_token (security.py lines 67-71). -/
structure JwtPayload where
  sub : Option String
  exp : Nat
  iat : Nat
deriving DecidableEq, Repr

/-- A wire token: either a well-formed signed token or garbage. -/
inductive Token where
  | signed (payload : JwtPayload) (key : String) (alg : String)
  | malformed (raw : String)
deriving DecidableEq, Repr

/-- jose.JWTError, the failure modes of jwt.decode. -/
inductive JWTError where
  | malformed
  | badSignature
  | expired
deriving DecidableEq, Repr

/-- Idealized jose jwt.encode: a signed token binding the claims to the key
and algorithm. -/
def jwtEncode (payload : JwtPayload) (key : String) (alg : String) : Token :=
  Token.signed payload key alg

/-- Idealized jose jwt.decode: fails on garbage, on a key or algorithm
mismatch, and on an expired `exp` claim; otherwise returns the claims. -/
def jwtDecode (token : Token) (key : String) (algs : List String) (now : Nat) :
    Except JWTError JwtPayload :=
  match token with
  | Token.malformed _ => Except.error JWTError.malformed
  | Token.signed payload k a =>
    if k = key ∧ a ∈ algs then
      if payload.exp < now then Except.error JWTError.expired
      else Except.ok payload
    else Except.error JWTError.badSignature

/-- The JWT-relevant part of app/config.py Settings. -/
structure Settings where
  SECRET_KEY : String
  ALGORITHM : String
  ACCESS_TOKEN_EXPIRE_MINUTES : Nat
deriving DecidableEq, Repr

/-- `create_access_token` (security.py lines 62-72): signs {sub, exp, iat}
with the configured key and algorithm; `expires_delta` (seconds) defaults to
ACCESS_TOKEN_EXPIRE_MINUTES minutes. -/
def create_access_token (cfg : Settings) (subject : String) (now : Nat)
    (expires_delta : Option Nat) : Token :=
  let expire := now + expires_delta.getD (cfg.ACCESS_TOKEN_EXPIRE_MINUTES * 60)
  jwtEncode { sub := some subject, exp := expire, iat := now } cfg.SECRET_KEY cfg.ALGORITHM

/-- `decode_access_token` (security.py lines 75-82): decodes and validates;
returns the subject claim on success, none on any JWTError. -/
def decode_access_token (cfg : Settings) (token : Token) (now : Nat) :
    Option String :=
  match jwtDecode token cfg.SECRET_KEY [cfg.ALGORITHM] now with
  | Except.ok payload => payload.sub
  | Except.error _ => none

/-! ## app/routes/auth.py — handlers

Each handler is a pure function of the request, the database state, and
explicit outcomes for the fallible library calls.  A handler returns its
result together with the database state the request leaves behind: only a
successful commit changes it, every failure path leaves the original state
(the session is rolled back or simply closed without commit). -/

/-- `_get_or_create_interest` (auth.py lines 33-60): select by exact name,
insert-and-flush when absent.  The try block catches OperationalError and
re-raises it as the 503; an IntegrityError raised by the flush (concurrent
insert of the same name) is NOT caught there and escapes.  `outcome` is the
behaviour of the database on this call; the insert path is the only one that
can raise IntegrityError.  Returns the updated interests table and the name
of the resolved Interest row. -/
def _get_or_create_interest (outcome : DbOutcome) (interests : List String)
    (name : String) : Except Failure (List String × String) :=
  match outcome with
  | DbOutcome.operationalError => Except.error (Failure.http databaseUnavailableError)
  | _ =>
    if name ∈ interests then Except.ok (interests, name)
    else
      match outcome with
      | DbOutcome.integrityError => Except.error (Failure.uncaught "IntegrityError")
      | _ => Except.ok (interests ++ [name], name)

/-- The list comprehension of register step 2 (auth.py line 108): resolve
each requested interest in order, threading the interests table. -/
def resolveInterests (outcome : String → DbOutcome) (interests : List String) :
    List String → Except Failure (List String × List String)
  | [] => Except.ok (interests, [])
  | name :: rest =>
    match _get_or_create_interest (outcome name) interests name with
    | Except.error f => Except.error f
    | Except.ok (ints1, obj) =>
      match resolveInterests outcome ints1 rest with
      | Except.error f => Except.error f
      | Except.ok (ints2, objs) => Except.ok (ints2, obj :: objs)

/-- `register` (auth.py lines 77-154).
Step 1: duplicate-email check on the lowercased email (OperationalError →
503; any other query exception escapes uncaught).
Step 2: get-or-create each interest.
Step 3: hash the password (`hashOk` false models hash_password raising
ValueError → 500 HASHING_ERROR).
Step 4: build the User (email lowercased, full name stripped, is_active
true) and commit: IntegrityError → rollback and 409 duplicate email,
OperationalError → rollback and 503.
The second component is the database state after the request. -/
def register (lookupOutcome : DbOutcome) (interestOutcome : String → DbOutcome)
    (hashOk : Bool) (hashf : String → String) (commitOutcome : DbOutcome)
    (db : DB) (payload : RegisterRequest) :
    Except Failure MessageResponse × DB :=
  match lookupOutcome with
  | DbOutcome.operationalError => (Except.error (Failure.http databaseUnavailableError), db)
  | DbOutcome.integrityError => (Except.error (Failure.uncaught "IntegrityError"), db)
  | DbOutcome.ok =>
    if db.users.any (fun u => u.email = pyLower payload.email) then
      (Except.error (Failure.http duplicateEmailError), db)
    else
      match resolveInterests interestOutcome db.interests payload.interests with
      | Except.error f => (Except.error f, db)
      | Except.ok (ints, objs) =>
        if hashOk = false then
          (Except.error (Failure.http hashingErrorHTTP), db)
        else
          let new_user : User :=
            { full_name := pyStrip payload.full_name
              email := pyLower payload.email
              hashed_password := hashf payload.password
              is_active := true
              interests := objs }
          match commitOutcome with
          | DbOutcome.ok =>
            (Except.ok { message := "Account created successfully" },
             { users := db.users ++ [new_user], interests := ints })
          | DbOutcome.integrityError =>
            (Except.error (Failure.http duplicateEmailError), db)
          | DbOutcome.operationalError =>
            (Except.error (Failure.http databaseUnavailableError), db)

/-- `login` (auth.py lines 171-228).
Step 1: look up the user by lowercased email (OperationalError → 503).
Step 2: ALWAYS call verify_password — with the stored hash when the user
exists, with the empty string otherwise; unknown email and wrong password
both raise the same 401.
Step 3: a found, verified but inactive account → 403.
Step 4: issue the token on the account's email.
The first component records every (plain, hash) pair passed to
verify_password, in call order, so that the always-verify behaviour is
observable in the embedding. -/
def login (lookupOutcome : DbOutcome) (verify : String → String → Bool)
    (mkToken : String → Token) (users : List User) (payload : LoginRequest) :
    List (String × String) × Except Failure (TokenResponse Token) :=
  match lookupOutcome with
  | DbOutcome.operationalError =>
    ([], Except.error (Failure.http databaseUnavailableError))
  | DbOutcome.integrityError =>
    ([], Except.error (Failure.uncaught "IntegrityError"))
  | DbOutcome.ok =>
    let user? := users.find? (fun u => u.email = pyLower payload.email)
    let hashArg := match user? with
      | some u => u.hashed_password
      | none => ""
    let password_valid := verify payload.password hashArg
    let calls := [(payload.password, hashArg)]
    match user?, password_valid with
    | none, _ => (calls, Except.error (Failure.http invalidCredentialsError))
    | some _, false => (calls, Except.error (Failure.http invalidCredentialsError))
    | some user, true =>
      if user.is_active = false then
        (calls, Except.error (Failure.http accountDisabledError))
      else
        (calls, Except.ok { access_token := mkToken user.email, token_type := "bearer" })

/-! ## Helper lemmas -/

/-- Truncating to the bcrypt limit is idempotent. -/
theorem bcryptTruncate_idem (p : String) :
    bcryptTruncate (bcryptTruncate p) = bcryptTruncate p := by
  simp [bcryptTruncate, List.take_take]

/-! ## Claims -/

/-- C2, counterexample: the validator applied to ["AI", "ai", " AI "] keeps
BOTH "AI" and "ai" (the de-duplication set is case-sensitive), so it does
not yield exactly one interest named "AI". -/
theorem interests_validator_c2_counterexample :
    interests_not_empty ["AI", "ai", " AI "] = Except.ok ["AI", "ai"] ∧
    (["AI", "ai"] : List String) ≠ ["AI"] := by
  exact ⟨rfl, by decide⟩

/-- C2, amended: trimming and case-sensitively de-duplicating
["AI", "ai", " AI "] yields exactly the two interests ["AI", "ai"], and a
registration carrying them stores exactly the two topics "AI" and "ai". -/
theorem interests_validator_c2_amended :
    interests_not_empty ["AI", "ai", " AI "] = Except.ok ["AI", "ai"] ∧
    (register DbOutcome.ok (fun _ => DbOutcome.ok) true
        (fun s => String.append "h" s) DbOutcome.ok ⟨[], []⟩
        ⟨"Jane Doe", "J@x.com", "password1", ["AI", "ai"]⟩).snd.interests =
      ["AI", "ai"] := by
  exact ⟨rfl, rfl⟩

/-- C6: decode_access_token is total — it maps every jwtDecode failure
(malformed token, wrong key, expired claim) to none and every success to the
token's subject claim; it never propagates an error. -/
theorem decode_access_token_c6_no_raise (cfg : Settings) (token : Token) (now : Nat) :
    (∀ e, jwtDecode token cfg.SECRET_KEY [cfg.ALGORITHM] now = Except.error e →
      decode_access_token cfg token now = none) ∧
    (∀ payload, jwtDecode token cfg.SECRET_KEY [cfg.ALGORITHM] now = Except.ok payload →
      decode_access_token cfg token now = payload.sub) ∧
    (∀ raw, decode_access_token cfg (Token.malformed raw) now = none) ∧
    (∀ payload key alg, key ≠ cfg.SECRET_KEY →
      decode_access_token cfg (Token.signed payload key alg) now = none) ∧
    (∀ payload, payload.exp < now →
      decode_access_token cfg (Token.signed payload cfg.SECRET_KEY cfg.ALGORITHM) now = none) := by
  refine ⟨fun e he => ?_, fun payload hp => ?_, fun raw => ?_, fun payload key alg hk => ?_,
    fun payload hexp => ?_⟩
  · simp [decode_access_token, he]
  · simp [decode_access_token, hp]
  · simp [decode_access_token, jwtDecode]
  · simp [decode_access_token, jwtDecode, hk]
  · simp [decode_access_token, jwtDecode, hexp]

/-- C6, witness at concrete inputs: a garbage token, a token signed with the
wrong key, and an expired token all decode to none. -/
theorem decode_access_token_c6_witness :
    decode_access_token ⟨"k", "HS256", 60⟩ (Token.malformed "garbage") 5 = none ∧
    decode_access_token ⟨"k", "HS256", 60⟩
      (Token.signed ⟨some "s", 100, 0⟩ "wrong" "HS256") 5 = none ∧
    decode_access_token ⟨"k", "HS256", 60⟩
      (Token.signed ⟨some "s", 3, 0⟩ "k" "HS256") 5 = none := by
  refine ⟨?_, ?_, ?_⟩
  · exact (decode_access_token_c6_no_raise ⟨"k", "HS256", 60⟩ (Token.malformed "garbage") 5).2.2.1 "garbage"
  · exact (decode_access_token_c6_no_raise ⟨"k", "HS256", 60⟩ (Token.signed ⟨some "s", 100, 0⟩ "wrong" "HS256") 5).2.2.2.1 ⟨some "s", 100, 0⟩ "wrong" "HS256" (by decide)
  · exact (decode_access_token_c6_no_raise ⟨"k", "HS256", 60⟩ (Token.signed ⟨some "s", 3, 0⟩ "k" "HS256") 5).2.2.2.2 ⟨some "s", 3, 0⟩ (by decide)

/-- C7: verify_password returns false (it does not propagate) whenever the
underlying primitive fails; both verify_password and hash_password pass the
primitive exactly the first 72 characters of the password, so they depend
only on that prefix; and on primitive success verify_password returns the
primitive's verdict unchanged. -/
theorem verify_password_c7_no_raise (ctxVerify : String → String → Except String Bool)
    (ctxHash : String → Except String String) (plain hashed e : String)
    (hfail : ctxVerify (bcryptTruncate plain) hashed = Except.error e) :
    verify_password ctxVerify plain hashed = false ∧
    (∀ p h, verify_password ctxVerify p h =
      verify_password ctxVerify (bcryptTruncate p) h) ∧
    (∀ p, hash_password ctxHash p = hash_password ctxHash (bcryptTruncate p)) ∧
    (∀ p b, ctxVerify (bcryptTruncate p) hashed = Except.ok b →
      verify_password ctxVerify p hashed = b) := by
  refine ⟨?_, fun p h => ?_, fun p => ?_, fun p b hb => ?_⟩
  · simp [verify_password, hfail]
  · simp [verify_password, bcryptTruncate_idem]
  · simp [hash_password, bcryptTruncate_idem]
  · simp [verify_password, hb]

/-- C7, witness: a primitive that always raises makes verify_password
return false on a concrete input. -/
theorem verify_password_c7_witness :
    verify_password (fun _ _ => Except.error "boom") "password1" "nothash" = false :=
  (verify_password_c7_no_raise (fun _ _ => Except.error "boom")
    (fun _ => Except.error "boom") "password1" "nothash" "boom" rfl).1

/-- C1: login calls verify_password exactly once in both failing cases —
with the empty placeholder hash when no account matches the lowercased
email, with the stored hash when the password is wrong — and both cases
return the one identical InvalidCredentials error (same status 401, code,
message, headers), so the caller cannot tell the sub-conditions apart. -/
theorem login_c1_always_verify_uniform_error (verify : String → String → Bool)
    (mkToken : String → Token) (users : List User) (payload : LoginRequest) :
    (users.find? (fun u => u.email = pyLower payload.email) = none →
      login DbOutcome.ok verify mkToken users payload =
        ([(payload.password, "")], Except.error (Failure.http invalidCredentialsError))) ∧
    (∀ u, users.find? (fun x => x.email = pyLower payload.email) = some u →
      verify payload.password u.hashed_password = false →
      login DbOutcome.ok verify mkToken users payload =
        ([(payload.password, u.hashed_password)],
         Except.error (Failure.http invalidCredentialsError))) := by
  constructor
  · intro hnone
    simp [login, hnone]
  · intro u hu hv
    simp [login, hu, hv]

/-- C1, witness: on an empty user table verify_password is invoked on the
placeholder hash "", and on a matching user with a rejecting verifier it is
invoked on the stored hash; both runs return the identical 401. -/
theorem login_c1_witness :
    login DbOutcome.ok (fun _ _ => false) (fun _ => Token.malformed "t") []
        ⟨"a@b.c", "pw"⟩ =
      ([("pw", "")], Except.error (Failure.http invalidCredentialsError)) ∧
    login DbOutcome.ok (fun _ _ => false) (fun _ => Token.malformed "t")
        [⟨"Jane", "a@b.c", "H", true, []⟩] ⟨"a@b.c", "pw"⟩ =
      ([("pw", "H")], Except.error (Failure.http invalidCredentialsError)) :=
  ⟨(login_c1_always_verify_uniform_error (fun _ _ => false) (fun _ => Token.malformed "t")
      [] ⟨"a@b.c", "pw"⟩).1 rfl,
   (login_c1_always_verify_uniform_error (fun _ _ => false) (fun _ => Token.malformed "t")
      [⟨"Jane", "a@b.c", "H", true, []⟩] ⟨"a@b.c", "pw"⟩).2
      ⟨"Jane", "a@b.c", "H", true, []⟩ rfl rfl⟩

/-- C5: when the account is found, the password verifies, and is_active is
false, login fails with the 403 AccountDisabled error, which differs from
InvalidCredentials; and the active check only runs on verified credentials:
an inactive account with a wrong password still gets the 401. -/
theorem login_c5_inactive_account_disabled (verify : String → String → Bool)
    (mkToken : String → Token) (users : List User) (payload : LoginRequest)
    (u : User)
    (hfind : users.find? (fun x => x.email = pyLower payload.email) = some u)
    (hver : verify payload.password u.hashed_password = true)
    (hact : u.is_active = false) :
    (login DbOutcome.ok verify mkToken users payload).snd =
      Except.error (Failure.http accountDisabledError) ∧
    (login DbOutcome.ok verify mkToken users payload).snd ≠
      Except.error (Failure.http invalidCredentialsError) ∧
    accountDisabledError.status = 403 ∧
    (∀ (users2 : List User) (payload2 : LoginRequest) (u2 : User),
      users2.find? (fun x => x.email = pyLower payload2.email) = some u2 →
      verify payload2.password u2.hashed_password = false →
      u2.is_active = false →
      (login DbOutcome.ok verify mkToken users2 payload2).snd =
        Except.error (Failure.http invalidCredentialsError)) := by
  refine ⟨?_, ?_, rfl, ?_⟩
  · simp [login, hfind, hver, hact]
  · simp [login, hfind, hver, hact, accountDisabledError, invalidCredentialsError]
  · intro users2 payload2 u2 hfind2 hver2 _
    simp [login, hfind2, hver2]

/-- C5, witness: a disabled account with an accepting verifier yields the
403 and not the 401; the same verifier rejecting another user yields the
401. -/
theorem login_c5_witness :
    (login DbOutcome.ok (fun _ h => h = "H") (fun _ => Token.malformed "t")
        [⟨"Jane", "a@b.c", "H", false, []⟩] ⟨"a@b.c", "pw"⟩).snd =
      Except.error (Failure.http accountDisabledError) ∧
    (login DbOutcome.ok (fun _ h => h = "H") (fun _ => Token.malformed "t")
        [⟨"Jane", "x@y.z", "OTHER", false, []⟩] ⟨"x@y.z", "pw"⟩).snd =
      Except.error (Failure.http invalidCredentialsError) := by
  have h := login_c5_inactive_account_disabled (fun _ h => h = "H")
    (fun _ => Token.malformed "t") [⟨"Jane", "a@b.c", "H", false, []⟩] ⟨"a@b.c", "pw"⟩
    ⟨"Jane", "a@b.c", "H", false, []⟩ rfl (by decide) rfl
  exact ⟨h.1, h.2.2.2 [⟨"Jane", "x@y.z", "OTHER", false, []⟩] ⟨"x@y.z", "pw"⟩
    ⟨"Jane", "x@y.z", "OTHER", false, []⟩ rfl (by decide) rfl⟩

/-- Inversion of a successful registration: success forces the ok path of
every fallible step, the duplicate pre-check to have found nothing, and the
committed state to be the old one extended with exactly the new user row
(lowercased email, stripped name, is_active true). -/
theorem registerSuccessInv (lookup : DbOutcome) (io : String → DbOutcome)
    (hashOk : Bool) (hashf : String → String) (commit : DbOutcome)
    (db : DB) (p : RegisterRequest) (msg : MessageResponse) (db' : DB)
    (h : register lookup io hashOk hashf commit db p = (Except.ok msg, db')) :
    ∃ ints objs,
      lookup = DbOutcome.ok ∧
      db.users.any (fun u => u.email = pyLower p.email) = false ∧
      resolveInterests io db.interests p.interests = Except.ok (ints, objs) ∧
      hashOk = true ∧ commit = DbOutcome.ok ∧
      db' = { users := db.users ++
                [{ full_name := pyStrip p.full_name
                   email := pyLower p.email
                   hashed_password := hashf p.password
                   is_active := true
                   interests := objs }]
              interests := ints } := by
  cases lookup with
  | operationalError => simp [register] at h
  | integrityError => simp [register] at h
  | ok =>
    cases hdup : db.users.any (fun u => u.email = pyLower p.email) with
    | true => simp [register, hdup] at h
    | false =>
      cases hres : resolveInterests io db.interests p.interests with
      | error f => simp [register, hdup, hres] at h
      | ok pr =>
        obtain ⟨ints, objs⟩ := pr
        cases hashOk with
        | false => simp [register, hdup, hres] at h
        | true =>
          cases commit with
          | integrityError => simp [register, hdup, hres] at h
          | operationalError => simp [register, hdup, hres] at h
          | ok =>
            simp only [register, hdup, Bool.false_eq_true, if_false, hres,
              if_neg, Bool.true_eq_false, Prod.mk.injEq, Except.ok.injEq] at h
            exact ⟨ints, objs, rfl, rfl, rfl, rfl, rfl, h.2.symm⟩

/-- C3: registration stores the lowercased email and checks duplicates on
the lowercased email, so after any successful registration a second attempt
whose email is case-insensitively equal fails with the 409
EMAIL_ALREADY_REGISTERED error, whatever its other step outcomes. -/
theorem register_c3_duplicate_case_insensitive (lookup1 : DbOutcome)
    (io1 : String → DbOutcome) (hashOk1 : Bool) (hashf1 : String → String)
    (commit1 : DbOutcome) (io2 : String → DbOutcome) (hashOk2 : Bool)
    (hashf2 : String → String) (commit2 : DbOutcome) (db db' : DB)
    (p1 p2 : RegisterRequest) (msg : MessageResponse)
    (heq : pyLower p1.email = pyLower p2.email)
    (hreg : register lookup1 io1 hashOk1 hashf1 commit1 db p1 = (Except.ok msg, db')) :
    (register DbOutcome.ok io2 hashOk2 hashf2 commit2 db' p2).fst =
      Except.error (Failure.http duplicateEmailError) ∧
    duplicateEmailError.status = 409 ∧
    duplicateEmailError.code = "EMAIL_ALREADY_REGISTERED" := by
  obtain ⟨ints, objs, -, -, -, -, -, hdb⟩ :=
    registerSuccessInv lookup1 io1 hashOk1 hashf1 commit1 db p1 msg db' hreg
  subst hdb
  refine ⟨?_, rfl, rfl⟩
  simp [register, List.any_append, heq]

/-- C3, witness: register "J@x.com" then register "j@X.com": the second
fails with the duplicate-email 409. -/
theorem register_c3_witness :
    (register DbOutcome.ok (fun _ => DbOutcome.ok) true (fun _ => "h")
        DbOutcome.ok
        ((register DbOutcome.ok (fun _ => DbOutcome.ok) true (fun _ => "h")
          DbOutcome.ok ⟨[], []⟩ ⟨"Jane Doe", "J@x.com", "password1", ["AI"]⟩).snd)
        ⟨"John Doe", "j@X.com", "password2", ["ML"]⟩).fst =
      Except.error (Failure.http duplicateEmailError) :=
  (register_c3_duplicate_case_insensitive DbOutcome.ok (fun _ => DbOutcome.ok)
    true (fun _ => "h") DbOutcome.ok (fun _ => DbOutcome.ok) true (fun _ => "h")
    DbOutcome.ok ⟨[], []⟩
    ⟨[⟨"Jane Doe", "j@x.com", "h", true, ["AI"]⟩], ["AI"]⟩
    ⟨"Jane Doe", "J@x.com", "password1", ["AI"]⟩
    ⟨"John Doe", "j@X.com", "password2", ["ML"]⟩
    ⟨"Account created successfully"⟩ rfl rfl).1

/-- C8: when every earlier step succeeded and the final commit raises
IntegrityError (the duplicate-email race), register reports the 409
EMAIL_ALREADY_REGISTERED error and the database state after the request is
exactly the state before it — the transaction is rolled back and no partial
account state survives. -/
theorem register_c8_commit_race_rollback (io : String → DbOutcome)
    (hashf : String → String) (db : DB) (p : RegisterRequest)
    (ints objs : List String)
    (hnodup : db.users.any (fun u => u.email = pyLower p.email) = false)
    (hres : resolveInterests io db.interests p.interests = Except.ok (ints, objs)) :
    register DbOutcome.ok io true hashf DbOutcome.integrityError db p =
      (Except.error (Failure.http duplicateEmailError), db) ∧
    duplicateEmailError.status = 409 := by
  refine ⟨?_, rfl⟩
  simp [register, hnodup, hres]

/-- C8, witness: a concrete registration whose commit hits the race leaves
the empty database unchanged and reports the 409. -/
theorem register_c8_witness :
    register DbOutcome.ok (fun _ => DbOutcome.ok) true (fun _ => "h")
        DbOutcome.integrityError ⟨[], []⟩
        ⟨"Jane Doe", "j@x.com", "password1", ["AI"]⟩ =
      (Except.error (Failure.http duplicateEmailError), ⟨[], []⟩) :=
  (register_c8_commit_race_rollback (fun _ => DbOutcome.ok) (fun _ => "h")
    ⟨[], []⟩ ⟨"Jane Doe", "j@x.com", "password1", ["AI"]⟩ ["AI"] ["AI"]
    rfl rfl).1

/-- C9, counterexample: with a fresh interest name whose flush raises
IntegrityError, register terminates with an UNCAUGHT IntegrityError — not
the 503 DatabaseUnavailable error and not the 409 conflict error: the
helper's try block only catches OperationalError and register's step 2 only
re-raises HTTPException. -/
theorem register_c9_counterexample :
    register DbOutcome.ok (fun _ => DbOutcome.integrityError) true (fun _ => "h")
        DbOutcome.ok ⟨[], []⟩ ⟨"Jane Doe", "j@x.com", "password1", ["AI"]⟩ =
      (Except.error (Failure.uncaught "IntegrityError"), ⟨[], []⟩) ∧
    Failure.uncaught "IntegrityError" ≠ Failure.http databaseUnavailableError ∧
    Failure.uncaught "IntegrityError" ≠ Failure.http duplicateEmailError := by
  exact ⟨rfl, by decide, by decide⟩

/-- C9, amended: an IntegrityError raised inside the get-or-create-interest
step propagates out of the registration flow as an uncaught internal fault
(the framework's generic 500), not as a flow-level DatabaseUnavailable or
conflict response; only an OperationalError at that site is translated to
the 503 DatabaseUnavailable error.  Either way the state is unchanged. -/
theorem register_c9_interest_race_uncaught (io : String → DbOutcome)
    (hashOk : Bool) (hashf : String → String) (commit : DbOutcome) (db : DB)
    (p : RegisterRequest) (name : String) (rest : List String)
    (hnodup : db.users.any (fun u => u.email = pyLower p.email) = false)
    (hints : p.interests = name :: rest)
    (hfresh : name ∉ db.interests) :
    (io name = DbOutcome.integrityError →
      register DbOutcome.ok io hashOk hashf commit db p =
        (Except.error (Failure.uncaught "IntegrityError"), db)) ∧
    (io name = DbOutcome.operationalError →
      register DbOutcome.ok io hashOk hashf commit db p =
        (Except.error (Failure.http databaseUnavailableError), db)) := by
  constructor
  · intro hio
    simp [register, hnodup, hints, resolveInterests, _get_or_create_interest,
      hio, hfresh]
  · intro hio
    simp [register, hnodup, hints, resolveInterests, _get_or_create_interest, hio]

/-- C9, witness for the amended claim: a concrete registration whose
interest flush races ends as the uncaught IntegrityError. -/
theorem register_c9_witness :
    register DbOutcome.ok (fun _ => DbOutcome.integrityError) true (fun _ => "h")
        DbOutcome.ok ⟨[], []⟩ ⟨"Jane Doe", "j@x.com", "password1", ["ML"]⟩ =
      (Except.error (Failure.uncaught "IntegrityError"), ⟨[], []⟩) :=
  (register_c9_interest_race_uncaught (fun _ => DbOutcome.integrityError) true
    (fun _ => "h") DbOutcome.ok ⟨[], []⟩
    ⟨"Jane Doe", "j@x.com", "password1", ["ML"]⟩ "ML" [] rfl rfl
    (by decide)).1 rfl

/-- C10: every account created by a successful registration has is_active
true, so logging in right afterwards with the correct password (a verifier
accepting the stored hash) succeeds with a token and can never reach the
AccountDisabled branch. -/
theorem register_c10_fresh_account_active (verify : String → String → Bool)
    (mkToken : String → Token) (lookup : DbOutcome) (io : String → DbOutcome)
    (hashOk : Bool) (hashf : String → String) (commit : DbOutcome)
    (db : DB) (p : RegisterRequest) (msg : MessageResponse) (db' : DB)
    (hreg : register lookup io hashOk hashf commit db p = (Except.ok msg, db'))
    (hver : verify p.password (hashf p.password) = true) :
    ∃ u : User,
      db'.users = db.users ++ [u] ∧ u.is_active = true ∧
      u.email = pyLower p.email ∧
      (login DbOutcome.ok verify mkToken db'.users ⟨p.email, p.password⟩).snd =
        Except.ok { access_token := mkToken u.email, token_type := "bearer" } ∧
      (login DbOutcome.ok verify mkToken db'.users ⟨p.email, p.password⟩).snd ≠
        Except.error (Failure.http accountDisabledError) := by
  obtain ⟨ints, objs, -, hnodup, -, -, -, hdb⟩ :=
    registerSuccessInv lookup io hashOk hashf commit db p msg db' hreg
  subst hdb
  refine ⟨{ full_name := pyStrip p.full_name
            email := pyLower p.email
            hashed_password := hashf p.password
            is_active := true
            interests := objs }, rfl, rfl, rfl, ?_, ?_⟩
  · have hfindnone :
        db.users.find? (fun u => u.email = pyLower p.email) = none := by
      rw [List.find?_eq_none]
      intro x hx
      simpa using List.any_eq_false.mp hnodup x hx
    simp [login, List.find?_append, hfindnone, hver]
  · have hfindnone :
        db.users.find? (fun u => u.email = pyLower p.email) = none := by
      rw [List.find?_eq_none]
      intro x hx
      simpa using List.any_eq_false.mp hnodup x hx
    simp [login, List.find?_append, hfindnone, hver]

/-- C10, witness: concrete registration then login with the matching
verifier returns the bearer token. -/
theorem register_c10_witness :
    (login DbOutcome.ok (fun _ _ => true) (fun _ => Token.malformed "t")
        [⟨"Jane Doe", "j@x.com", "h", true, ["AI"]⟩] ⟨"J@x.com", "password1"⟩).snd =
      Except.ok { access_token := Token.malformed "t", token_type := "bearer" } := by
  obtain ⟨u, -, -, -, h4, -⟩ :=
    register_c10_fresh_account_active (fun _ _ => true) (fun _ => Token.malformed "t")
      DbOutcome.ok (fun _ => DbOutcome.ok) true (fun _ => "h") DbOutcome.ok
      ⟨[], []⟩ ⟨"Jane Doe", "J@x.com", "password1", ["AI"]⟩
      ⟨"Account created successfully"⟩
      ⟨[⟨"Jane Doe", "j@x.com", "h", true, ["AI"]⟩], ["AI"]⟩ rfl rfl
  exact h4

/-- C4: decoding a token produced by create_access_token under the same
settings, at any time not past its expiry, returns exactly the subject it
was created with; consequently a successful login returns a token whose
decoded subject is the email of the account that logged in. -/
theorem token_c4_roundtrip (cfg : Settings) (subject : String) (now now' : Nat)
    (delta : Option Nat)
    (h : now' ≤ now + delta.getD (cfg.ACCESS_TOKEN_EXPIRE_MINUTES * 60)) :
    decode_access_token cfg (create_access_token cfg subject now delta) now' =
      some subject ∧
    (∀ (verify : String → String → Bool) (users : List User)
        (payload : LoginRequest) (calls : List (String × String))
        (resp : TokenResponse Token),
      login DbOutcome.ok verify (fun s => create_access_token cfg s now delta)
          users payload = (calls, Except.ok resp) →
      ∃ u, users.find? (fun x => x.email = pyLower payload.email) = some u ∧
        decode_access_token cfg resp.access_token now' = some u.email) := by
  have hdec : ∀ s, decode_access_token cfg (create_access_token cfg s now delta)
      now' = some s := by
    intro s
    simp [decode_access_token, create_access_token, jwtEncode, jwtDecode,
      Nat.not_lt.mpr h]
  refine ⟨hdec subject, ?_⟩
  intro verify users payload calls resp hlogin
  cases hfind : users.find? (fun u => u.email = pyLower payload.email) with
  | none => simp [login, hfind] at hlogin
  | some u =>
    cases hv : verify payload.password u.hashed_password with
    | false => simp [login, hfind, hv] at hlogin
    | true =>
      cases hact : u.is_active with
      | false => simp [login, hfind, hv, hact] at hlogin
      | true =>
        refine ⟨u, rfl, ?_⟩
        simp [login, hfind, hv, hact] at hlogin
        obtain ⟨-, hresp⟩ := hlogin
        rw [← hresp]
        exact hdec u.email

/-- C4, witness: a token for subject "jane@x.com" issued at time 0 with the
default 60-minute lifetime decodes to "jane@x.com" at second 3599. -/
theorem token_c4_witness :
    decode_access_token ⟨"k", "HS256", 60⟩
        (create_access_token ⟨"k", "HS256", 60⟩ "jane@x.com" 0 none) 3599 =
      some "jane@x.com" :=
  (token_c4_roundtrip ⟨"k", "HS256", 60⟩ "jane@x.com" 0 3599 none (by decide)).1

end SynthRss
